import Mathlib

/-!
# Verification of the rtorrent-xmlrpc-bindings typed multicall core

A shallow embedding of the crate `rtorrent-xmlrpc-bindings`: the unified
error type and `Server` handle from `src/exec.rs`, the download-scoped
multicall builder and operation constants from `src/multicall/ops/d.rs`,
and — modelled from the specification, since their source files are not
part of the provided sources — the value conversion layer, the raw
multicall builder, and the row decoder.
-/

namespace RtorrentXmlrpc

/-- Modelled from the spec: the closed set of semantic result types of the
Value Conversion Layer (`value_conversion` module, not among the provided
sources): text, 64-bit integer, double-precision float, boolean, raw bytes. -/
inductive ResultType where
  | text
  | int64
  | float64
  | bool
  | bytes
deriving DecidableEq, Repr

/-- Modelled from the spec: the wire value shape the transport collaborator
produces (spec section 6): one of text, 64-bit integer, double-precision
float, boolean, or raw byte sequence.  The core never interprets float
payloads, so an `f64` is carried opaquely as its 64-bit bit pattern; a raw
byte sequence is a list of bytes. -/
inductive UntypedValue where
  | text (s : String)
  | int64 (i : Int)
  | float64 (bits : Nat)
  | bool (b : Bool)
  | bytes (bs : List Nat)
deriving DecidableEq, Repr

/-- Modelled from the spec: a typed value produced by the Value Conversion
Layer — same five kinds as the wire shape, but statically tagged with the
declared result type. -/
inductive TypedValue where
  | text (s : String)
  | int64 (i : Int)
  | float64 (bits : Nat)
  | bool (b : Bool)
  | bytes (bs : List Nat)
deriving DecidableEq, Repr

/-- The semantic type tag of a typed value. -/
def TypedValue.typeOf : TypedValue → ResultType
  | .text _ => .text
  | .int64 _ => .int64
  | .float64 _ => .float64
  | .bool _ => .bool
  | .bytes _ => .bytes

/-- The underlying `xmlrpc::Error` of the transport collaborator.  Its
internals are external to the crate; the spec says it is opaque to the core
beyond being wrapped, so it is embedded as an opaque message carrier. -/
structure XmlRpcError where
  msg : String
deriving DecidableEq, Repr

/-- The unified error type of the crate (`enum Error` in `src/exec.rs`):
either a wrapped transport (`xmlrpc`) error or an unexpected-structure
error carrying a description string. -/
inductive Error where
  | xmlRpc (e : XmlRpcError)
  | unexpectedStructure (s : String)
deriving DecidableEq, Repr

/-- The `From<xmlrpc::Error> for Error` impl in `src/exec.rs`: wraps the
transport error into the `XmlRpc` variant. -/
def Error.fromXmlRpc (x : XmlRpcError) : Error :=
  Error.xmlRpc x

/-- The `std::error::Error::source` impl in `src/exec.rs`: returns the
wrapped `xmlrpc::Error` for the `XmlRpc` variant and `None` otherwise. -/
def Error.source : Error → Option XmlRpcError
  | .xmlRpc xe => some xe
  | _ => none

/-- Does the wire tag of an untyped value agree with a declared result
type?  (The success condition of the Value Conversion Layer.) -/
def tagMatches : UntypedValue → ResultType → Bool
  | .text _, .text => true
  | .int64 _, .int64 => true
  | .float64 _, .float64 => true
  | .bool _, .bool => true
  | .bytes _, .bytes => true
  | _, _ => false

/-- Human-readable name of a result type, used in error descriptions. -/
def ResultType.describe : ResultType → String
  | .text => "text"
  | .int64 => "int64"
  | .float64 => "float64"
  | .bool => "bool"
  | .bytes => "bytes"

/-- Wire tag name of an untyped value, used in error descriptions. -/
def UntypedValue.describe : UntypedValue → String
  | .text _ => "text"
  | .int64 _ => "int64"
  | .float64 _ => "float64"
  | .bool _ => "bool"
  | .bytes _ => "bytes"

/-- Modelled from the spec: the Value Conversion Layer's
`to_typed(value, expected)` (the crate's `value_conversion` module, not
among the provided sources).  Conversion is exact and non-lossy for the
five supported kinds; any wire value whose tag does not match `expected`
fails with `UnexpectedStructure` carrying a description of the expected
vs. actual shape. -/
def to_typed (v : UntypedValue) (expected : ResultType) : Except Error TypedValue :=
  match v, expected with
  | .text s, .text => .ok (.text s)
  | .int64 i, .int64 => .ok (.int64 i)
  | .float64 b, .float64 => .ok (.float64 b)
  | .bool b, .bool => .ok (.bool b)
  | .bytes bs, .bytes => .ok (.bytes bs)
  | v, e =>
      .error (.unexpectedStructure
        ("expected " ++ e.describe ++ ", got " ++ v.describe))

/-- The total tag-preserving conversion underlying `to_typed`: on a wire
value whose tag matches the declared type, `to_typed` returns exactly this
typed value. -/
def convert : UntypedValue → TypedValue
  | .text s => .text s
  | .int64 i => .int64 i
  | .float64 b => .float64 b
  | .bool b => .bool b
  | .bytes bs => .bytes bs

/-- A shared reference-counted pointer (`std::sync::Arc`), embedded as an
address into a heap of allocations.  The derived `Clone` on a struct holding
an `Arc` clones the `Arc`, which copies the address (sharing the pointee)
rather than copying the pointee itself. -/
structure Arc (α : Type) where
  addr : Nat
deriving DecidableEq, Repr

/-- `Arc::clone`: copies the pointer (the address), never the pointee. -/
def Arc.clone {α : Type} (a : Arc α) : Arc α :=
  { addr := a.addr }

/-- `struct ServerInner` from `src/exec.rs`: the endpoint string.  It has
no mutating operations; the endpoint is fixed at construction. -/
structure ServerInner where
  endpoint : String
deriving DecidableEq, Repr

/-- `struct Server` from `src/exec.rs`: a logical rtorrent instance,
holding an `Arc<ServerInner>`. -/
structure Server where
  inner : Arc ServerInner
deriving DecidableEq, Repr

/-- The derived `Clone` impl on `Server` (`#[derive(Clone, Debug)]` in
`src/exec.rs`): clones the inner `Arc`, i.e. shares `ServerInner`. -/
def Server.clone (s : Server) : Server :=
  { inner := s.inner.clone }

/-- Modelled from the spec: `Server::new(endpoint_uri)` never fails and
opens no connection; it allocates a `ServerInner` holding the endpoint at a
fresh address and stores the pointer.  (The constructor body is not among
the provided sources; `src/exec.rs` shows only the struct definitions.) -/
def Server.new (addr : Nat) (endpoint_uri : String) : Server × ServerInner :=
  ({ inner := { addr := addr } }, { endpoint := endpoint_uri })

namespace multicall

/-- A download-scoped multicall operation (the `DownloadMultiCallOp` type
introduced by the `op_type!` macro invocation in `src/multicall/ops/d.rs`):
an immutable pairing of a fully qualified remote name and a declared result
type.  The phantom result-type parameter of the Rust type is embedded as
the `resultType` tag. -/
structure DownloadMultiCallOp where
  remoteName : String
  resultType : ResultType
deriving DecidableEq, Repr

/-- The `d_op_const!` macro from `src/multicall/ops/d.rs`: constructs a
download-scoped operation descriptor whose remote name is the short API
name qualified by the download namespace `"d."` (the macro forwards the
literal `"d."` and the API name to `op_const!`, which — per the spec, its
source not being among the provided files — computes the remote name by
namespace-qualifying the short name). -/
def d_op_const (res : ResultType) (api : String) : DownloadMultiCallOp :=
  { remoteName := "d." ++ api, resultType := res }

namespace raw

/-- Modelled from the spec: the raw multicall builder
(`multicall::raw::MultiBuilder`, not among the provided sources).  It holds
the server handle, the multicall method name, and the ordered argument
list of the single batched RPC call being assembled. -/
structure MultiBuilder where
  server : Server
  multicall : String
  args : List UntypedValue
deriving Repr

/-- Modelled from the spec: `raw::MultiBuilder::new(server, multicall,
arg1, arg2)` starts the batched call with the two leading string arguments
(the protocol-mandated empty placeholder and the target filter, as supplied
by the typed wrapper). -/
def MultiBuilder.new (server : Server) (multicall arg1 arg2 : String) :
    MultiBuilder :=
  { server := server, multicall := multicall
    args := [.text arg1, .text arg2] }

/-- Modelled from the spec: appending one column's remote name to the
batched argument list. -/
def MultiBuilder.push_arg (b : MultiBuilder) (v : UntypedValue) :
    MultiBuilder :=
  { b with args := b.args ++ [v] }

end raw

namespace d

/-- `multicall::d::MultiBuilder` from `src/multicall/ops/d.rs` together
with its accumulated typed state: the Rust builder chain tracks the
declared column types in phantom type parameters; the embedding tracks the
ordered list of accumulated operation descriptors alongside the raw
builder. -/
structure MultiBuilder where
  inner : raw.MultiBuilder
  columns : List DownloadMultiCallOp
deriving Repr

/-- `d::MultiBuilder::new(server, view)` from `src/multicall/ops/d.rs`:
starts a `"d.multicall2"` batched call with the empty placeholder and the
view as the two leading arguments, and no columns. -/
def MultiBuilder.new (server : Server) (view : String) : MultiBuilder :=
  { inner := raw.MultiBuilder.new server "d.multicall2" "" view
    columns := [] }

/-- Modelled from the spec: the `call` method produced by the
`define_builder!` macro chain (the `ops` module's macro body is not among
the provided sources): appends the descriptor to the ordered column list,
extending the declared row type by one position, and pushes the
descriptor's remote name onto the raw argument list. -/
def MultiBuilder.call (b : MultiBuilder) (op : DownloadMultiCallOp) :
    MultiBuilder :=
  { inner := b.inner.push_arg (.text op.remoteName)
    columns := b.columns ++ [op] }

/-- `d::HASH` from `src/multicall/ops/d.rs`: infohash, a string field. -/
def HASH : DownloadMultiCallOp := d_op_const .text "hash"

/-- `d::BASE_FILENAME` from `src/multicall/ops/d.rs`. -/
def BASE_FILENAME : DownloadMultiCallOp := d_op_const .text "base_filename"

/-- `d::BASE_PATH` from `src/multicall/ops/d.rs`. -/
def BASE_PATH : DownloadMultiCallOp := d_op_const .text "base_path"

/-- `d::DIRECTORY` from `src/multicall/ops/d.rs`. -/
def DIRECTORY : DownloadMultiCallOp := d_op_const .text "directory"

/-- `d::DIRECTORY_BASE` from `src/multicall/ops/d.rs`. -/
def DIRECTORY_BASE : DownloadMultiCallOp := d_op_const .text "directory_base"

/-- `d::CHUNK_SIZE` from `src/multicall/ops/d.rs`: an `i64` field. -/
def CHUNK_SIZE : DownloadMultiCallOp := d_op_const .int64 "chunk_size"

/-- `d::COMPLETE` from `src/multicall/ops/d.rs`: a `bool` field. -/
def COMPLETE : DownloadMultiCallOp := d_op_const .bool "complete"

/-- `d::INCOMPLETE` from `src/multicall/ops/d.rs`. -/
def INCOMPLETE : DownloadMultiCallOp := d_op_const .bool "incomplete"

/-- `d::COMPLETED_BYTES` from `src/multicall/ops/d.rs`. -/
def COMPLETED_BYTES : DownloadMultiCallOp := d_op_const .int64 "completed_bytes"

/-- `d::COMPLETED_CHUNKS` from `src/multicall/ops/d.rs`. -/
def COMPLETED_CHUNKS : DownloadMultiCallOp := d_op_const .int64 "completed_chunks"

/-- `d::DOWN_RATE` from `src/multicall/ops/d.rs`. -/
def DOWN_RATE : DownloadMultiCallOp := d_op_const .int64 "down.rate"

/-- `d::DOWN_TOTAL` from `src/multicall/ops/d.rs`. -/
def DOWN_TOTAL : DownloadMultiCallOp := d_op_const .int64 "down.total"

/-- `d::IS_ACTIVE` from `src/multicall/ops/d.rs`. -/
def IS_ACTIVE : DownloadMultiCallOp := d_op_const .bool "is_active"

/-- `d::IS_OPEN` from `src/multicall/ops/d.rs`. -/
def IS_OPEN : DownloadMultiCallOp := d_op_const .bool "is_open"

/-- `d::IS_CLOSED` from `src/multicall/ops/d.rs`. -/
def IS_CLOSED : DownloadMultiCallOp := d_op_const .bool "is_closed"

/-- `d::LOADED_FILE` from `src/multicall/ops/d.rs`. -/
def LOADED_FILE : DownloadMultiCallOp := d_op_const .text "loaded_file"

/-- `d::MESSAGE` from `src/multicall/ops/d.rs`. -/
def MESSAGE : DownloadMultiCallOp := d_op_const .text "message"

/-- `d::NAME` from `src/multicall/ops/d.rs`: the torrent name, a string. -/
def NAME : DownloadMultiCallOp := d_op_const .text "name"

/-- `d::RATIO` from `src/multicall/ops/d.rs`: upload ratio, an `f64`. -/
def RATIO : DownloadMultiCallOp := d_op_const .float64 "ratio"

/-- `d::SIZE_BYTES` from `src/multicall/ops/d.rs`. -/
def SIZE_BYTES : DownloadMultiCallOp := d_op_const .int64 "size_bytes"

/-- `d::SIZE_FILES` from `src/multicall/ops/d.rs`. -/
def SIZE_FILES : DownloadMultiCallOp := d_op_const .int64 "size_files"

/-- `d::STATE` from `src/multicall/ops/d.rs`. -/
def STATE : DownloadMultiCallOp := d_op_const .bool "state"

/-- `d::TIED_TO_FILE` from `src/multicall/ops/d.rs`. -/
def TIED_TO_FILE : DownloadMultiCallOp := d_op_const .text "tied_to_file"

/-- `d::TRACKER_SIZE` from `src/multicall/ops/d.rs`. -/
def TRACKER_SIZE : DownloadMultiCallOp := d_op_const .int64 "tracker_size"

/-- `d::UP_RATE` from `src/multicall/ops/d.rs`. -/
def UP_RATE : DownloadMultiCallOp := d_op_const .int64 "up.rate"

/-- `d::UP_TOTAL` from `src/multicall/ops/d.rs`. -/
def UP_TOTAL : DownloadMultiCallOp := d_op_const .int64 "up.total"

end d

/-- Modelled from the spec: converting one raw row position by position.
Each position `i` is decoded via the Value Conversion Layer using
`columns[i]`, propagating the first conversion failure encountered. -/
def convertRow : List UntypedValue → List ResultType →
    Except Error (List TypedValue)
  | [], [] => .ok []
  | v :: vs, t :: ts =>
      match to_typed v t with
      | .error e => .error e
      | .ok x =>
          match convertRow vs ts with
          | .error e => .error e
          | .ok xs => .ok (x :: xs)
  | _, _ => .error (.unexpectedStructure "row width mismatch")

/-- Modelled from the spec: decoding one raw row.  Fails with
`UnexpectedStructure` if the row width differs from the column count;
otherwise converts position by position. -/
def decodeRow (row : List UntypedValue) (cols : List ResultType) :
    Except Error (List TypedValue) :=
  if row.length = cols.length then convertRow row cols
  else .error (.unexpectedStructure "row width mismatch")

/-- Modelled from the spec: the Row Decoder,
`decode(raw_rows, columns) -> Result<ResultSet, Error>` — decodes every
row eagerly, in server order, failing the whole call on the first
malformed row.  The Result Set is the resulting list of typed rows. -/
def decode : List (List UntypedValue) → List ResultType →
    Except Error (List (List TypedValue))
  | [], _ => .ok []
  | r :: rs, cols =>
      match decodeRow r cols with
      | .error e => .error e
      | .ok row =>
          match decode rs cols with
          | .error e => .error e
          | .ok rest => .ok (row :: rest)

/-- The declared row type of a builder: the ordered result types of its
accumulated columns. -/
def d.MultiBuilder.columnTypes (b : d.MultiBuilder) : List ResultType :=
  b.columns.map DownloadMultiCallOp.resultType

/-- Modelled from the spec: `invoke()` consumes the builder, dispatches the
assembled call through the transport collaborator exactly once, and decodes
the raw response into a Result Set typed by the accumulated columns.  The
transport round trip is the only external effect, so it enters the
embedding as an argument: either the transport fails (its error is wrapped
through the crate's `From` impl) or it yields the raw rows to decode. -/
def d.MultiBuilder.invoke (b : d.MultiBuilder)
    (transport : Except XmlRpcError (List (List UntypedValue))) :
    Except Error (List (List TypedValue)) :=
  match transport with
  | .error e => .error (Error.fromXmlRpc e)
  | .ok rows => decode rows b.columnTypes

/-- The batched RPC request a finalized builder dispatches: the method
name and the ordered argument list. -/
def d.MultiBuilder.request (b : d.MultiBuilder) :
    String × List UntypedValue :=
  (b.inner.multicall, b.inner.args)

end multicall

/-! ## Basic lemmas about the Value Conversion Layer -/

/-- `to_typed` succeeds exactly on a matching wire tag, and then returns
the tag-preserving conversion of the wire value. -/
lemma to_typed_ok_iff (v : UntypedValue) (t : ResultType) (x : TypedValue) :
    to_typed v t = .ok x ↔ (tagMatches v t = true ∧ x = convert v) := by
  cases v <;> cases t <;>
    simp [to_typed, tagMatches, convert, eq_comm]

/-- Every failure of `to_typed` is an `UnexpectedStructure` error. -/
lemma to_typed_error_structure (v : UntypedValue) (t : ResultType)
    (e : Error) (h : to_typed v t = .error e) :
    ∃ s, e = .unexpectedStructure s := by
  cases v <;> cases t <;>
    simp [to_typed] at h <;> exact ⟨_, h.symm⟩

/-- On a matching tag, the conversion's result carries exactly the declared
result type. -/
lemma convert_typeOf (v : UntypedValue) (t : ResultType)
    (h : tagMatches v t = true) : (convert v).typeOf = t := by
  cases v <;> cases t <;> simp_all [tagMatches, convert, TypedValue.typeOf]

/-- Does a raw row agree with the declared columns: same width, and every
position's wire tag matches the declared result type. -/
def rowMatches (row : List UntypedValue) (cols : List ResultType) : Bool :=
  row.length == cols.length &&
    (row.zip cols).all (fun p => tagMatches p.1 p.2)

namespace multicall

/-! ## Lemmas about the row decoder -/

/-- A matching row converts successfully, position by position. -/
lemma convertRow_ok_of_matches :
    ∀ (row : List UntypedValue) (cols : List ResultType),
      rowMatches row cols = true →
      convertRow row cols = .ok (row.map convert)
  | [], [], _ => rfl
  | [], _ :: _, h => by simp [rowMatches] at h
  | _ :: _, [], h => by simp [rowMatches] at h
  | v :: vs, t :: ts, h => by
      simp only [rowMatches, List.zip_cons_cons, List.all_cons,
        List.length_cons, beq_iff_eq, Bool.and_eq_true,
        Nat.succ_inj] at h
      obtain ⟨hlen, hv, hrest⟩ := h
      have hrec : convertRow vs ts = .ok (vs.map convert) :=
        convertRow_ok_of_matches vs ts (by
          simp [rowMatches, hlen, hrest])
      have hv' : to_typed v t = .ok (convert v) :=
        (to_typed_ok_iff v t (convert v)).mpr ⟨hv, rfl⟩
      simp [convertRow, hv', hrec]

/-- Conversely, a successful conversion means the row matched and the
output is the positionwise conversion. -/
lemma convertRow_ok_inv :
    ∀ (row : List UntypedValue) (cols : List ResultType)
      (out : List TypedValue),
      convertRow row cols = .ok out →
      rowMatches row cols = true ∧ out = row.map convert
  | [], [], out, h => by
      simp [convertRow] at h
      simp [rowMatches, h.symm]
  | [], _ :: _, _, h => by simp [convertRow] at h
  | _ :: _, [], _, h => by simp [convertRow] at h
  | v :: vs, t :: ts, out, h => by
      simp only [convertRow] at h
      cases hv : to_typed v t with
      | error e => rw [hv] at h; exact absurd h (by simp)
      | ok x =>
          rw [hv] at h
          cases hrec : convertRow vs ts with
          | error e => rw [hrec] at h; exact absurd h (by simp)
          | ok xs =>
              rw [hrec] at h
              simp only [Except.ok.injEq] at h
              obtain ⟨htag, hx⟩ := (to_typed_ok_iff v t x).mp hv
              obtain ⟨hmatch, hxs⟩ := convertRow_ok_inv vs ts xs hrec
              constructor
              · simp only [rowMatches, List.length_cons, beq_iff_eq,
                  Nat.succ_inj, List.zip_cons_cons, List.all_cons,
                  Bool.and_eq_true] at hmatch ⊢
                exact ⟨hmatch.1, htag, hmatch.2⟩
              · simp [← h, hx, hxs]

/-- Every failure of `convertRow` is an `UnexpectedStructure` error. -/
lemma convertRow_error_structure :
    ∀ (row : List UntypedValue) (cols : List ResultType) (e : Error),
      convertRow row cols = .error e →
      ∃ s, e = .unexpectedStructure s
  | [], [], _, h => by simp [convertRow] at h
  | [], _ :: _, e, h => by
      simp only [convertRow, Except.error.injEq] at h
      exact ⟨_, h.symm⟩
  | _ :: _, [], e, h => by
      simp only [convertRow, Except.error.injEq] at h
      exact ⟨_, h.symm⟩
  | v :: vs, t :: ts, e, h => by
      simp only [convertRow] at h
      cases hv : to_typed v t with
      | error e0 =>
          rw [hv] at h
          simp only [Except.error.injEq] at h
          exact h ▸ to_typed_error_structure v t e0 hv
      | ok x =>
          rw [hv] at h
          cases hrec : convertRow vs ts with
          | error e0 =>
              rw [hrec] at h
              simp only [Except.error.injEq] at h
              exact h ▸ convertRow_error_structure vs ts e0 hrec
          | ok xs => rw [hrec] at h; exact absurd h (by simp)

/-- `decodeRow` on a matching row: success with the positionwise
conversion. -/
lemma decodeRow_ok_of_matches (row : List UntypedValue)
    (cols : List ResultType) (h : rowMatches row cols = true) :
    decodeRow row cols = .ok (row.map convert) := by
  have hlen : row.length = cols.length := by
    simp only [rowMatches, Bool.and_eq_true, beq_iff_eq] at h
    exact h.1
  simp [decodeRow, hlen, convertRow_ok_of_matches row cols h]

/-- `decodeRow` succeeds only on a matching row, and then yields the
positionwise conversion. -/
lemma decodeRow_ok_inv (row : List UntypedValue) (cols : List ResultType)
    (out : List TypedValue) (h : decodeRow row cols = .ok out) :
    rowMatches row cols = true ∧ out = row.map convert := by
  unfold decodeRow at h
  by_cases hlen : row.length = cols.length
  · rw [if_pos hlen] at h
    exact convertRow_ok_inv row cols out h
  · rw [if_neg hlen] at h
    exact absurd h (by simp)

/-- Every failure of `decodeRow` is an `UnexpectedStructure` error. -/
lemma decodeRow_error_structure (row : List UntypedValue)
    (cols : List ResultType) (e : Error)
    (h : decodeRow row cols = .error e) :
    ∃ s, e = .unexpectedStructure s := by
  unfold decodeRow at h
  by_cases hlen : row.length = cols.length
  · rw [if_pos hlen] at h
    exact convertRow_error_structure row cols e h
  · rw [if_neg hlen] at h
    simp only [Except.error.injEq] at h
    exact ⟨_, h.symm⟩

/-- `decode` on a response of matching rows: success, yielding the
positionwise conversion of every row in order. -/
lemma decode_ok_of_matches :
    ∀ (rows : List (List UntypedValue)) (cols : List ResultType),
      (∀ row ∈ rows, rowMatches row cols = true) →
      decode rows cols = .ok (rows.map (fun row => row.map convert))
  | [], _, _ => rfl
  | r :: rs, cols, h => by
      have h1 : decodeRow r cols = .ok (r.map convert) :=
        decodeRow_ok_of_matches r cols (h r (by simp))
      have h2 : decode rs cols = .ok (rs.map (fun row => row.map convert)) :=
        decode_ok_of_matches rs cols (fun row hm => h row (by simp [hm]))
      simp [decode, h1, h2]

/-- `decode` succeeds only when every row matches, and then yields the
positionwise conversion of every row. -/
lemma decode_ok_inv :
    ∀ (rows : List (List UntypedValue)) (cols : List ResultType)
      (res : List (List TypedValue)),
      decode rows cols = .ok res →
      (∀ row ∈ rows, rowMatches row cols = true) ∧
        res = rows.map (fun row => row.map convert)
  | [], _, res, h => by
      simp only [decode, Except.ok.injEq] at h
      simp [h.symm]
  | r :: rs, cols, res, h => by
      simp only [decode] at h
      cases h1 : decodeRow r cols with
      | error e => rw [h1] at h; exact absurd h (by simp)
      | ok row =>
          rw [h1] at h
          cases h2 : decode rs cols with
          | error e => rw [h2] at h; exact absurd h (by simp)
          | ok rest =>
              rw [h2] at h
              simp only [Except.ok.injEq] at h
              obtain ⟨hm1, hrow⟩ := decodeRow_ok_inv r cols row h1
              obtain ⟨hm2, hrest⟩ := decode_ok_inv rs cols rest h2
              refine ⟨?_, ?_⟩
              · intro x hx
                rcases List.mem_cons.mp hx with hx | hx
                · exact hx ▸ hm1
                · exact hm2 x hx
              · simp [← h, hrow, hrest]

/-- Every failure of `decode` is an `UnexpectedStructure` error. -/
lemma decode_error_structure :
    ∀ (rows : List (List UntypedValue)) (cols : List ResultType) (e : Error),
      decode rows cols = .error e →
      ∃ s, e = .unexpectedStructure s
  | [], _, _, h => by simp [decode] at h
  | r :: rs, cols, e, h => by
      simp only [decode] at h
      cases h1 : decodeRow r cols with
      | error e0 =>
          rw [h1] at h
          simp only [Except.error.injEq] at h
          exact h ▸ decodeRow_error_structure r cols e0 h1
      | ok row =>
          rw [h1] at h
          cases h2 : decode rs cols with
          | error e0 =>
              rw [h2] at h
              simp only [Except.error.injEq] at h
              exact h ▸ decode_error_structure rs cols e0 h2
          | ok rest => rw [h2] at h; exact absurd h (by simp)

/-- Converting a matching row yields values whose type tags are exactly
the declared column types, position by position. -/
lemma map_convert_typeOf :
    ∀ (row : List UntypedValue) (cols : List ResultType),
      rowMatches row cols = true →
      (row.map convert).map TypedValue.typeOf = cols
  | [], [], _ => rfl
  | [], _ :: _, h => by simp [rowMatches] at h
  | _ :: _, [], h => by simp [rowMatches] at h
  | v :: vs, t :: ts, h => by
      simp only [rowMatches, List.zip_cons_cons, List.all_cons,
        List.length_cons, beq_iff_eq, Bool.and_eq_true,
        Nat.succ_inj] at h
      obtain ⟨hlen, hv, hrest⟩ := h
      have hrec := map_convert_typeOf vs ts (by simp [rowMatches, hlen, hrest])
      simp [convert_typeOf v t hv, hrec]

/-- What a chain of `call` invocations does to a builder: the descriptors
are appended to the column list in order, and their remote names are
appended to the raw argument list in the same order; the method name and
server are untouched. -/
lemma foldl_call_spec :
    ∀ (cs : List DownloadMultiCallOp) (b : d.MultiBuilder),
      (cs.foldl d.MultiBuilder.call b).columns = b.columns ++ cs ∧
      (cs.foldl d.MultiBuilder.call b).inner.multicall =
        b.inner.multicall ∧
      (cs.foldl d.MultiBuilder.call b).inner.args =
        b.inner.args ++ cs.map (fun c => .text c.remoteName) ∧
      (cs.foldl d.MultiBuilder.call b).inner.server = b.inner.server
  | [], b => by simp
  | c :: cs, b => by
      have ih := foldl_call_spec cs (b.call c)
      simp only [List.foldl_cons] at *
      refine ⟨?_, ?_, ?_, ?_⟩
      · rw [ih.1]; simp [d.MultiBuilder.call]
      · rw [ih.2.1]; rfl
      · rw [ih.2.2.1]
        simp [d.MultiBuilder.call, raw.MultiBuilder.push_arg]
      · rw [ih.2.2.2]; rfl

end multicall

/-- Modelled from the spec: a single-field string accessor such as
`Server::hostname` (the `prim_getter`/`exec_str_getter` macro bodies are
not among the provided sources).  It issues one call through the same
transport collaborator, wraps a transport failure through the crate's
`From` impl, and converts a text response value to the string it carries,
failing with `UnexpectedStructure` on any other wire tag. -/
def Server.hostname (_s : Server)
    (transport : Except XmlRpcError UntypedValue) : Except Error String :=
  match transport with
  | .error e => .error (Error.fromXmlRpc e)
  | .ok v =>
      match v with
      | .text str => .ok str
      | v => .error (.unexpectedStructure ("expected text, got " ++ v.describe))

/-! ## Concrete fixtures used by witnesses -/

/-- A concrete server handle for concrete evaluations. -/
def testServer : Server :=
  { inner := { addr := 0 } }

/-- A concrete one-column builder (the `d.name` column). -/
def testBuilder1 : multicall.d.MultiBuilder :=
  (multicall.d.MultiBuilder.new testServer "default").call multicall.d.NAME

/-- A concrete two-column builder (the spec's concrete scenario: columns
`NAME` then `RATIO` over the `"default"` view). -/
def testBuilder2 : multicall.d.MultiBuilder :=
  [multicall.d.NAME, multicall.d.RATIO].foldl
    multicall.d.MultiBuilder.call
    (multicall.d.MultiBuilder.new testServer "default")

/-- The spec's concrete two-row raw response for `testBuilder2`. -/
def testRows : List (List UntypedValue) :=
  [[.text "Ubuntu.iso", .float64 1], [.text "Debian.iso", .float64 0]]

/-! ## The claims -/

/-- C2: for every finalized builder over entity kind Download with target
filter `view` and accumulated column descriptors `cs`, the constructed RPC
call has method name `"d.multicall2"` and argument list
`["", view, remote_name cs_1, ..., remote_name cs_n]`, with the empty
string as the leading placeholder argument. -/
theorem claim_C2_request_shape (server : Server) (view : String)
    (cs : List multicall.DownloadMultiCallOp) :
    (cs.foldl multicall.d.MultiBuilder.call
        (multicall.d.MultiBuilder.new server view)).request =
      ("d.multicall2",
        .text "" :: .text view ::
          cs.map (fun c => .text c.remoteName)) := by
  have h := multicall.foldl_call_spec cs
    (multicall.d.MultiBuilder.new server view)
  unfold multicall.d.MultiBuilder.request
  rw [h.2.1, h.2.2.1]
  simp [multicall.d.MultiBuilder.new, multicall.raw.MultiBuilder.new]

/-- C3: a multicall invocation whose raw response contains some row of
width different from the declared column count fails with an
`UnexpectedStructure` error and produces no Result Set. -/
theorem claim_C3_bad_width (b : multicall.d.MultiBuilder)
    (rows : List (List UntypedValue))
    (h : ∃ row ∈ rows, row.length ≠ b.columnTypes.length) :
    ∃ s, b.invoke (.ok rows) = .error (.unexpectedStructure s) := by
  cases hdec : multicall.decode rows b.columnTypes with
  | ok res =>
      obtain ⟨row, hmem, hne⟩ := h
      have hm := (multicall.decode_ok_inv rows b.columnTypes res hdec).1
        row hmem
      simp only [rowMatches, Bool.and_eq_true, beq_iff_eq] at hm
      exact absurd hm.1 hne
  | error e =>
      obtain ⟨s, rfl⟩ :=
        multicall.decode_error_structure rows b.columnTypes e hdec
      exact ⟨s, by simp [multicall.d.MultiBuilder.invoke, hdec]⟩

/-- C3 witness: invoking the one-column builder on a single row of width 2
fails with `UnexpectedStructure`. -/
theorem claim_C3_witness :
    ∃ s, testBuilder1.invoke (.ok [[.text "a", .text "b"]]) =
      .error (.unexpectedStructure s) :=
  claim_C3_bad_width testBuilder1 [[.text "a", .text "b"]]
    ⟨[.text "a", .text "b"], by simp, by decide⟩

/-- C4: a multicall invocation whose raw response contains some value
whose wire tag disagrees with its column's declared result type fails with
an `UnexpectedStructure` error; no partial tuple is returned. -/
theorem claim_C4_bad_tag (b : multicall.d.MultiBuilder)
    (rows : List (List UntypedValue))
    (h : ∃ row ∈ rows, ∃ p ∈ row.zip b.columnTypes,
      tagMatches p.1 p.2 = false) :
    ∃ s, b.invoke (.ok rows) = .error (.unexpectedStructure s) := by
  cases hdec : multicall.decode rows b.columnTypes with
  | ok res =>
      obtain ⟨row, hmem, p, hp, hbad⟩ := h
      have hm := (multicall.decode_ok_inv rows b.columnTypes res hdec).1
        row hmem
      simp only [rowMatches, Bool.and_eq_true, beq_iff_eq,
        List.all_eq_true] at hm
      have := hm.2 p hp
      simp [hbad] at this
  | error e =>
      obtain ⟨s, rfl⟩ :=
        multicall.decode_error_structure rows b.columnTypes e hdec
      exact ⟨s, by simp [multicall.d.MultiBuilder.invoke, hdec]⟩

/-- C4 witness: invoking the one-column builder (declared text) on a row
carrying a 64-bit integer fails with `UnexpectedStructure`. -/
theorem claim_C4_witness :
    ∃ s, testBuilder1.invoke (.ok [[.int64 5]]) =
      .error (.unexpectedStructure s) :=
  claim_C4_bad_tag testBuilder1 [[.int64 5]]
    ⟨[.int64 5], by simp, (.int64 5, .text), by decide, by decide⟩

/-- C5: a download-scoped operation descriptor built from short name `api`
has remote name `"d." ++ api`; the derivation does not depend on the
declared result type and is deterministic (it is a pure function of the
short name); concretely, the catalog constant `NAME` has remote name
`"d.name"`. -/
theorem claim_C5_remote_name (res : ResultType) (api : String) :
    (multicall.d_op_const res api).remoteName = "d." ++ api ∧
    (∀ res', (multicall.d_op_const res' api).remoteName =
      (multicall.d_op_const res api).remoteName) ∧
    multicall.d.NAME.remoteName = "d.name" :=
  ⟨rfl, fun _ => rfl, rfl⟩

/-- C8: a builder with zero declared columns, invoked against a response
of `n` rows each of width 0, succeeds and yields a Result Set of `n` empty
tuples. -/
theorem claim_C8_zero_columns (server : Server) (view : String) (n : Nat) :
    (multicall.d.MultiBuilder.new server view).invoke
        (.ok (List.replicate n [])) =
      .ok (List.replicate n []) := by
  have h := multicall.decode_ok_of_matches (List.replicate n [])
    ([] : List ResultType)
    (fun row hr => by rw [List.eq_of_mem_replicate hr]; rfl)
  simp [multicall.d.MultiBuilder.invoke,
    multicall.d.MultiBuilder.columnTypes, multicall.d.MultiBuilder.new,
    h, List.map_replicate]

/-- C9: `Error::source` returns `Some` of the wrapped underlying xmlrpc
error for the `XmlRpc` (transport) variant, and `None` for the
`UnexpectedStructure` variant. -/
theorem claim_C9_source (e : XmlRpcError) (s : String) :
    (Error.xmlRpc e).source = some e ∧
    (Error.unexpectedStructure s).source = none :=
  ⟨rfl, rfl⟩

/-- C10: cloning a `Server` handle copies the `Arc` pointer, so the clone
shares the same `ServerInner` allocation (same address) as the original;
under any heap of allocations both handles therefore see the same endpoint
string; and construction stores the given endpoint unchanged, with no
operation in the embedding mutating it afterwards. -/
theorem claim_C10_clone_shares (s : Server) :
    s.clone.inner.addr = s.inner.addr ∧
    (∀ heap : Nat → ServerInner,
      (heap s.clone.inner.addr).endpoint =
        (heap s.inner.addr).endpoint) ∧
    (∀ (addr : Nat) (uri : String),
      ((Server.new addr uri).2).endpoint = uri) :=
  ⟨rfl, fun _ => rfl, fun _ _ => rfl⟩

/-- C1: invoking the multicall on a raw response whose rows each contain
exactly as many values as declared columns, with wire tags matching the
declared result types, succeeds and yields a Result Set with the same
number of rows as the response, where the tuple field at position `i` of
row `j` equals the typed conversion of the response value at position `i`
of row `j`, in server row order. -/
theorem claim_C1_invoke_success (b : multicall.d.MultiBuilder)
    (rows : List (List UntypedValue))
    (h : ∀ row ∈ rows, rowMatches row b.columnTypes = true) :
    ∃ res, b.invoke (.ok rows) = .ok res ∧
      res.length = rows.length ∧
      ∀ (j : Nat) (hj : j < rows.length) (hjr : j < res.length)
        (i : Nat) (hi : i < (rows.get ⟨j, hj⟩).length)
        (hir : i < (res.get ⟨j, hjr⟩).length),
        (res.get ⟨j, hjr⟩).get ⟨i, hir⟩ =
          convert ((rows.get ⟨j, hj⟩).get ⟨i, hi⟩) := by
  refine ⟨rows.map (fun row => row.map convert), ?_, by simp, ?_⟩
  · simp [multicall.d.MultiBuilder.invoke,
      multicall.decode_ok_of_matches rows b.columnTypes h]
  · intro j hj hjr i hi hir
    simp [List.get_eq_getElem, List.getElem_map]

/-- C1 witness: the spec's concrete scenario — two columns `NAME` (text)
and `RATIO` (float), two well-shaped response rows — succeeds with two
rows converted position by position. -/
theorem claim_C1_witness :
    ∃ res, testBuilder2.invoke (.ok testRows) = .ok res ∧
      res.length = testRows.length ∧
      ∀ (j : Nat) (hj : j < testRows.length) (hjr : j < res.length)
        (i : Nat) (hi : i < (testRows.get ⟨j, hj⟩).length)
        (hir : i < (res.get ⟨j, hjr⟩).length),
        (res.get ⟨j, hjr⟩).get ⟨i, hir⟩ =
          convert ((testRows.get ⟨j, hj⟩).get ⟨i, hi⟩) :=
  claim_C1_invoke_success testBuilder2 testRows (by decide)

/-- C6: the order of declared columns is preserved exactly: the `i`-th
descriptor added is the `i`-th column of the finalized builder and the
`i`-th remote name in the batched argument list (after the two leading
protocol arguments), and on a successful invocation every decoded row's
`i`-th field carries the `i`-th declared result type. -/
theorem claim_C6_column_order (server : Server) (view : String)
    (cs : List multicall.DownloadMultiCallOp) :
    (cs.foldl multicall.d.MultiBuilder.call
        (multicall.d.MultiBuilder.new server view)).columns = cs ∧
    (cs.foldl multicall.d.MultiBuilder.call
        (multicall.d.MultiBuilder.new server view)).inner.args =
      .text "" :: .text view ::
        cs.map (fun c => .text c.remoteName) ∧
    ∀ (rows : List (List UntypedValue)) (res : List (List TypedValue)),
      (cs.foldl multicall.d.MultiBuilder.call
          (multicall.d.MultiBuilder.new server view)).invoke (.ok rows) =
        .ok res →
      ∀ r ∈ res, r.map TypedValue.typeOf =
        cs.map multicall.DownloadMultiCallOp.resultType := by
  have h := multicall.foldl_call_spec cs
    (multicall.d.MultiBuilder.new server view)
  have hcols : (cs.foldl multicall.d.MultiBuilder.call
      (multicall.d.MultiBuilder.new server view)).columns = cs := by
    rw [h.1]; rfl
  refine ⟨hcols, ?_, ?_⟩
  · rw [h.2.2.1]
    simp [multicall.d.MultiBuilder.new, multicall.raw.MultiBuilder.new]
  · intro rows res hinv r hr
    have hdec : multicall.decode rows
        (cs.foldl multicall.d.MultiBuilder.call
          (multicall.d.MultiBuilder.new server view)).columnTypes =
        .ok res := hinv
    obtain ⟨hall, hres⟩ := multicall.decode_ok_inv rows _ res hdec
    subst hres
    obtain ⟨row, hrow, rfl⟩ := List.mem_map.mp hr
    have := multicall.map_convert_typeOf row _ (hall row hrow)
    rw [this, multicall.d.MultiBuilder.columnTypes, hcols]

/-- C6 witness: with columns `[NAME, RATIO]`, the builder's column list is
`[NAME, RATIO]`, the argument list is the two protocol arguments followed
by `"d.name"` and `"d.ratio"` in order, and the decoded row of a concrete
successful invocation carries the types `[text, float64]`. -/
theorem claim_C6_witness :
    testBuilder2.columns = [multicall.d.NAME, multicall.d.RATIO] ∧
    testBuilder2.inner.args =
      [.text "", .text "default", .text "d.name", .text "d.ratio"] ∧
    ∀ r ∈ [[TypedValue.text "Ubuntu.iso", TypedValue.float64 1],
           [TypedValue.text "Debian.iso", TypedValue.float64 0]],
      r.map TypedValue.typeOf =
        [multicall.d.NAME, multicall.d.RATIO].map
          multicall.DownloadMultiCallOp.resultType :=
  ⟨(claim_C6_column_order testServer "default"
      [multicall.d.NAME, multicall.d.RATIO]).1,
   by
    have h := (claim_C6_column_order testServer "default"
      [multicall.d.NAME, multicall.d.RATIO]).2.1
    exact h,
   (claim_C6_column_order testServer "default"
      [multicall.d.NAME, multicall.d.RATIO]).2.2 testRows
     [[TypedValue.text "Ubuntu.iso", TypedValue.float64 1],
      [TypedValue.text "Debian.iso", TypedValue.float64 0]] rfl⟩

/-- C7: every error surfaced by `invoke` or by a single-field call is
either a wrapped transport error (`XmlRpc`) or an `UnexpectedStructure`
error, and every transport-collaborator error is wrapped through the
crate's `From` impl into the `XmlRpc` variant, never passed through or
converted to another kind. -/
theorem claim_C7_error_kinds (b : multicall.d.MultiBuilder) (s : Server)
    (transportM : Except XmlRpcError (List (List UntypedValue)))
    (transportS : Except XmlRpcError UntypedValue) :
    (∀ err, b.invoke transportM = .error err →
      (∃ e, err = .xmlRpc e) ∨ ∃ msg, err = .unexpectedStructure msg) ∧
    (∀ err, s.hostname transportS = .error err →
      (∃ e, err = .xmlRpc e) ∨ ∃ msg, err = .unexpectedStructure msg) ∧
    (∀ e, b.invoke (.error e) = .error (Error.fromXmlRpc e)) ∧
    (∀ e, s.hostname (.error e) = .error (Error.fromXmlRpc e)) := by
  refine ⟨?_, ?_, fun _ => rfl, fun _ => rfl⟩
  · intro err herr
    cases transportM with
    | error e =>
        simp only [multicall.d.MultiBuilder.invoke, Except.error.injEq]
          at herr
        exact Or.inl ⟨e, herr.symm⟩
    | ok rows =>
        simp only [multicall.d.MultiBuilder.invoke] at herr
        obtain ⟨msg, rfl⟩ :=
          multicall.decode_error_structure rows b.columnTypes err herr
        exact Or.inr ⟨msg, rfl⟩
  · intro err herr
    cases transportS with
    | error e =>
        simp only [Server.hostname, Except.error.injEq] at herr
        exact Or.inl ⟨e, herr.symm⟩
    | ok v =>
        cases v with
        | text str => simp [Server.hostname] at herr
        | int64 i =>
            simp only [Server.hostname, Except.error.injEq] at herr
            exact Or.inr ⟨_, herr.symm⟩
        | float64 bits =>
            simp only [Server.hostname, Except.error.injEq] at herr
            exact Or.inr ⟨_, herr.symm⟩
        | bool b2 =>
            simp only [Server.hostname, Except.error.injEq] at herr
            exact Or.inr ⟨_, herr.symm⟩
        | bytes bs =>
            simp only [Server.hostname, Except.error.injEq] at herr
            exact Or.inr ⟨_, herr.symm⟩

/-- C7 witness: a concrete failed transport round trip surfaces through
`invoke` and through the single-field accessor as the wrapped `XmlRpc`
error, which is one of the two kinds. -/
theorem claim_C7_witness :
    ((∃ e, Error.xmlRpc ⟨"conn refused"⟩ = Error.xmlRpc e) ∨
      ∃ msg, Error.xmlRpc ⟨"conn refused"⟩ =
        Error.unexpectedStructure msg) ∧
    testBuilder1.invoke (.error ⟨"conn refused"⟩) =
      .error (Error.fromXmlRpc ⟨"conn refused"⟩) ∧
    testServer.hostname (.error ⟨"conn refused"⟩) =
      .error (Error.fromXmlRpc ⟨"conn refused"⟩) :=
  ⟨(claim_C7_error_kinds testBuilder1 testServer
      (.error ⟨"conn refused"⟩) (.error ⟨"conn refused"⟩)).1
      (Error.xmlRpc ⟨"conn refused"⟩) rfl,
   (claim_C7_error_kinds testBuilder1 testServer
      (.error ⟨"conn refused"⟩) (.error ⟨"conn refused"⟩)).2.2.1
      ⟨"conn refused"⟩,
   (claim_C7_error_kinds testBuilder1 testServer
      (.error ⟨"conn refused"⟩) (.error ⟨"conn refused"⟩)).2.2.2
      ⟨"conn refused"⟩⟩

end RtorrentXmlrpc
